import Mathlib

/-
Verification of the rundmcmc/GerryChain defaults module and the
graph-construction behaviour exercised by its test suite.

The embedding below follows `src/rundmcmc/defaults/defaults.py` for the chain
constructors (`DefaultChain`, `BasicChain`, `GridChain`, `default_constraints`,
`grid_validator`).  The modules that file imports (`rundmcmc.validity`,
`rundmcmc.updaters`, `rundmcmc.chain`, `rundmcmc.accept`, `rundmcmc.partition`)
are not part of the sources; their behaviour is modelled from the
specification, and each such definition carries a doc comment saying so.
Machine reals of the Python code are modelled as exact rationals.
-/

namespace GerryChain

/-- Modelled from the spec: the black-box GraphSource output — a finite
undirected graph whose nodes carry the numeric attributes the updaters read
(population, area, outer-boundary perimeter contribution) and whose edges
carry a shared-boundary length.  Nodes are natural numbers; attribute maps
are total functions. -/
structure Graph where
  nodes : List Nat
  edges : List (Nat × Nat)
  pop : Nat → ℚ
  area : Nat → ℚ
  boundary_perim : Nat → ℚ
  shared_perim : Nat × Nat → ℚ

/-- Modelled from the spec: a Partition (rundmcmc.partition, not under src/)
assigns every node to a part.  `prevParts` records the parts that existed
before the flip that produced this partition (equal to the current parts for
an initial partition), `flip` records the single flipped node together with
its previous part (`none` for an initial partition), and `updaters` is the
set of registered updater names. -/
structure Partition where
  graph : Graph
  assignment : Nat → Nat
  prevParts : List Nat
  flip : Option (Nat × Nat)
  updaters : List String

/-- The part ids actually occurring in the assignment. -/
def Partition.parts (p : Partition) : List Nat :=
  (p.graph.nodes.map p.assignment).dedup

/-- Modelled from the spec: the `cut_edges` updater — the edges whose two
endpoints lie in different parts. -/
def cut_edges (p : Partition) : List (Nat × Nat) :=
  p.graph.edges.filter (fun e => p.assignment e.1 != p.assignment e.2)

/-- Modelled from the spec: `Tally(attribute, alias)` — the sum of a numeric
node attribute over the members of one part. -/
def Tally (attr : Nat → ℚ) (p : Partition) (part : Nat) : ℚ :=
  ((p.graph.nodes.filter (fun n => p.assignment n == part)).map attr).sum

/-- The `population` Tally of one part. -/
def population (p : Partition) (part : Nat) : ℚ :=
  Tally p.graph.pop p part

/-- The `population` updater's value: a dictionary from part id to its
population tally, keyed by the parts occurring in the assignment. -/
def populationTally (p : Partition) : List (Nat × ℚ) :=
  p.parts.map (fun q => (q, population p q))

/-- Modelled from the spec: the `perimeters` updater — a part's perimeter is
the sum of its member nodes' outer-boundary perimeter contributions plus, for
every cut edge touching the part, that edge's shared-boundary length. -/
def perimeters (p : Partition) (part : Nat) : ℚ :=
  ((p.graph.nodes.filter (fun n => p.assignment n == part)).map
      p.graph.boundary_perim).sum
    + (((cut_edges p).filter (fun e =>
        p.assignment e.1 == part || p.assignment e.2 == part)).map
          p.graph.shared_perim).sum

/-- Modelled from the spec: `L1_reciprocal_polsby_popper` — the L1 sum over
parts of the reciprocal Polsby–Popper score `perimeter^2 / (4·π·area)`.  The
positive constant `1/(4π)` is dropped here, because the only use of this
statistic in the program is a comparison of two of its values (an UpperBound
captured from the initial partition), which the positive scaling leaves
unchanged; dropping it keeps the definition inside exact rational
arithmetic. -/
def L1_reciprocal_polsby_popper (p : Partition) : ℚ :=
  (p.parts.map (fun q => perimeters p q ^ 2 / Tally p.graph.area p q)).sum

/-- Total population of the graph. -/
def total_population (p : Partition) : ℚ :=
  (p.graph.nodes.map p.graph.pop).sum

/-- Modelled from the spec: the ideal population is the total population
divided by the number of parts, computed from a reference partition. -/
def ideal_population (p : Partition) : ℚ :=
  total_population p / (p.parts.length : ℚ)

/-- Whether two nodes are joined by an edge of the graph. -/
def adjacentIn (g : Graph) (a b : Nat) : Bool :=
  g.edges.any (fun e => (e.1 == a && e.2 == b) || (e.1 == b && e.2 == a))

/-- Fuel-bounded breadth-first growth of a reachable set inside the allowed
node set. -/
def growReach (g : Graph) (allowed : List Nat) : List Nat → Nat → List Nat
  | visited, 0 => visited
  | visited, fuel + 1 =>
      let next := allowed.filter (fun n =>
        !(visited.contains n) && visited.any (fun v => adjacentIn g v n))
      match next with
      | [] => visited
      | _ => growReach g allowed (visited ++ next) fuel

/-- Whether the subgraph induced by one part is connected (an empty part
counts as connected). -/
def connectedPart (p : Partition) (part : Nat) : Bool :=
  let members := (p.graph.nodes.filter (fun n => p.assignment n == part)).dedup
  match members with
  | [] => true
  | m :: _ =>
      members.all (fun n => (growReach p.graph members [m] members.length).contains n)

/-- Modelled from the spec: `single_flip_contiguous` (rundmcmc.validity, not
under src/) — after a single-node flip, the donor part (the flipped node's
previous part) and the receiving part (its new part) must both remain
internally connected; for an initial partition with no flip every part is
checked. -/
def single_flip_contiguous (p : Partition) : Bool :=
  match p.flip with
  | none => p.parts.all (connectedPart p)
  | some np => connectedPart p np.2 && connectedPart p (p.assignment np.1)

/-- Modelled from the spec: `no_vanishing_districts` — every part that
existed before the flip must still have at least one node. -/
def no_vanishing_districts (p : Partition) : Bool :=
  p.prevParts.all (fun q => p.graph.nodes.any (fun n => p.assignment n == q))

/-- Modelled from the spec (design note §9): constraints as a closed tagged
variant, each carrying the immutable state captured at construction:
contiguity, no-vanishing-districts, a population band around a fixed ideal,
and an upper bound on `L1_reciprocal_polsby_popper`. -/
inductive ConstraintSpec where
  | contiguous
  | noVanishing
  | withinPercent (ideal : ℚ) (pct : ℚ)
  | upperBoundL1RPP (bound : ℚ)
deriving DecidableEq

/-- Modelled from the spec: `within_percent_of_ideal_population(partition,
pct)` — a factory binding the ideal population computed once from the
reference partition; the returned constraint fails when some part's
population Tally deviates from the ideal by more than `pct` of it. -/
def within_percent_of_ideal_population (reference : Partition) (pct : ℚ) : ConstraintSpec :=
  ConstraintSpec.withinPercent (ideal_population reference) pct

/-- Modelled from the spec: `UpperBound(statistic_fn, bound)` at its one
instantiation in the sources, with `L1_reciprocal_polsby_popper` as the
statistic: the constraint fails when the statistic exceeds the fixed bound
captured at construction. -/
def UpperBound (bound : ℚ) : ConstraintSpec :=
  ConstraintSpec.upperBoundL1RPP bound

/-- Evaluation of one constraint on a partition. -/
def evalConstraint : ConstraintSpec → Partition → Bool
  | ConstraintSpec.contiguous, p => single_flip_contiguous p
  | ConstraintSpec.noVanishing, p => no_vanishing_districts p
  | ConstraintSpec.withinPercent ideal pct, p =>
      p.parts.all (fun q => decide (|population p q - ideal| ≤ pct * ideal))
  | ConstraintSpec.upperBoundL1RPP bound, p =>
      decide (L1_reciprocal_polsby_popper p ≤ bound)

/-- Modelled from the spec: a Validator owns an ordered list of constraint
predicates. -/
structure Validator where
  constraints : List ConstraintSpec

/-- Modelled from the spec: a partition is valid iff every predicate of the
Validator passes, evaluated in order with short-circuiting. -/
def Validator.isValid (v : Validator) (p : Partition) : Bool :=
  v.constraints.all (fun c => evalConstraint c p)

/-- From the source (defaults.py): `default_constraints =
[single_flip_contiguous, no_vanishing_districts]`. -/
def default_constraints : List ConstraintSpec :=
  [ConstraintSpec.contiguous, ConstraintSpec.noVanishing]

/-- From the source (defaults.py): `grid_validator =
Validator([single_flip_contiguous, no_vanishing_districts])`. -/
def grid_validator : Validator :=
  ⟨[ConstraintSpec.contiguous, ConstraintSpec.noVanishing]⟩

/-- The error values surfaced by construction: Python's ValueError and
KeyError as raised by the code, plus the spec's taxonomy names
ConfigurationError and InvalidInitialStateError. -/
inductive Err where
  | valueError (msg : String)
  | keyError (key : String)
  | configurationError
  | invalidInitialStateError
deriving DecidableEq

/-- Modelled from the spec: the Partition's named-statistic lookup for the
`cut_edges` updater; a name with no registered updater fails like a Python
dictionary lookup (KeyError). -/
def Partition.getCutEdges (p : Partition) : Except Err (List (Nat × Nat)) :=
  if "cut_edges" ∈ p.updaters then Except.ok (cut_edges p)
  else Except.error (Err.keyError "cut_edges")

/-- Modelled from the spec: the Partition's named-statistic lookup for the
`population` updater (a per-part tally dictionary); a missing name fails like
a Python dictionary lookup (KeyError). -/
def Partition.getPopulationTally (p : Partition) : Except Err (List (Nat × ℚ)) :=
  if "population" ∈ p.updaters then Except.ok (populationTally p)
  else Except.error (Err.keyError "population")

/-- The proposal used by every chain constructor in defaults.py.  Its
randomness is modelled at the chain level by quantifying over candidate
streams, so here only its identity is recorded. -/
inductive ProposalKind where
  | propose_random_flip
deriving DecidableEq

/-- Modelled from the spec: `always_accept(partition)` returns true
unconditionally. -/
def always_accept (_p : Partition) : Bool :=
  true

/-- The MarkovChain configuration: proposal, validator, acceptance function,
initial state and step budget. -/
structure MarkovChain where
  proposal : ProposalKind
  validator : Validator
  accept : Partition → Bool
  initial_state : Partition
  total_steps : Nat

/-- Modelled from the spec: MarkovChain construction fails with
InvalidInitialStateError when the initial partition fails its own
validator. -/
def MarkovChain.create (proposal : ProposalKind) (validator : Validator)
    (accept : Partition → Bool) (initial_state : Partition)
    (total_steps : Nat) : Except Err MarkovChain :=
  if validator.isValid initial_state then
    Except.ok ⟨proposal, validator, accept, initial_state, total_steps⟩
  else
    Except.error Err.invalidInitialStateError

/-- From the source (defaults.py): `DefaultChain` builds a Validator from the
given constraint list and runs with `propose_random_flip` and
`always_accept`. -/
def DefaultChain (partition : Partition) (constraints : List ConstraintSpec)
    (total_steps : Nat) : Except Err MarkovChain :=
  MarkovChain.create ProposalKind.propose_random_flip ⟨constraints⟩
    always_accept partition total_steps

/-- From the source (defaults.py): `BasicChain.__init__` — reject a falsy
(empty or missing) `cut_edges` or `population` updater value with ValueError,
then build the validator from `default_constraints` plus a
within-1%-of-ideal population constraint and an UpperBound on
`L1_reciprocal_polsby_popper`, both captured from the initial state. -/
def BasicChain (initial_state : Partition) (total_steps : Nat) :
    Except Err MarkovChain :=
  match initial_state.getCutEdges with
  | Except.error e => Except.error e
  | Except.ok ce =>
    if ce.isEmpty then
      Except.error (Err.valueError "BasicChain needs the Partition to have a cut_edges updater.")
    else
      match initial_state.getPopulationTally with
      | Except.error e => Except.error e
      | Except.ok popT =>
        if popT.isEmpty then
          Except.error (Err.valueError "BasicChain needs the Partition to have a population updater.")
        else
          MarkovChain.create ProposalKind.propose_random_flip
            ⟨default_constraints ++
              [within_percent_of_ideal_population initial_state (1 / 100),
               UpperBound (L1_reciprocal_polsby_popper initial_state)]⟩
            always_accept initial_state total_steps

/-- From the source (defaults.py): `GridChain.__init__` — reject a falsy
`cut_edges` value with ValueError (the message says BasicChain, faithfully to
the source), then run with `grid_validator`, `propose_random_flip` and
`always_accept`. -/
def GridChain (initial_grid : Partition) (total_steps : Nat) :
    Except Err MarkovChain :=
  match initial_grid.getCutEdges with
  | Except.error e => Except.error e
  | Except.ok ce =>
    if ce.isEmpty then
      Except.error (Err.valueError "BasicChain needs the Partition to have a cut_edges updater.")
    else
      MarkovChain.create ProposalKind.propose_random_flip grid_validator
        always_accept initial_grid total_steps

/-- Modelled from the spec: one step of the MarkovChain loop — a candidate
that passes the validator and the acceptance function becomes the new current
state; otherwise the current state is kept (and re-emitted). -/
def MarkovChain.step (c : MarkovChain) (current cand : Partition) : Partition :=
  if c.validator.isValid cand && c.accept cand then cand else current

/-- The states emitted after the initial one, given the stream of proposed
candidates. -/
def runFrom (c : MarkovChain) (current : Partition) : List Partition → List Partition
  | [] => []
  | cand :: rest =>
      let next := c.step current cand
      next :: runFrom c next rest

/-- Modelled from the spec: the emitted sequence of a run — the initial state
followed by one state per step.  The candidate stream stands for the random
choices of `propose_random_flip`; quantifying over it covers every possible
run. -/
def MarkovChain.run (c : MarkovChain) (cands : List Partition) : List Partition :=
  c.initial_state :: runFrom c c.initial_state cands

/-
Geometry model.  `Graph.from_geodataframe` (gerrychain.graph, not under src/)
is modelled from the spec: the GraphSource computes geometric adjacency from
polygon geometries, annotates edges with the shared-boundary length, nodes
with their polygon's area, and marks nodes on the outer boundary of the union
with their outer-boundary length.  The fixtures' polygons are axis-aligned
with integer vertices, so boundaries are decomposed into canonical unit
segments; shared-boundary length is the number of unit segments two polygon
boundaries have in common.  Only the reproject=False path is modelled: the
reproject=True path applies an external cartographic projection (UTM) that
the spec leaves unspecified.  The graph's combinatorial structure (adjacency,
boundary-node flags) is independent of the projection. -/

/-- A point of the integer grid. -/
abbrev Point := ℤ × ℤ

/-- A polygon as its list of vertices (the ring closes implicitly, as with
shapely polygons). -/
abbrev Polygon := List Point

/-- The edges of a polygon ring: consecutive vertex pairs, wrapping around. -/
def polygonEdges (poly : Polygon) : List (Point × Point) :=
  match poly with
  | [] => []
  | v :: _ => poly.zip (poly.drop 1 ++ [v])

/-- Modelled from the spec: decomposition of an axis-aligned integer edge into
canonical unit segments (each ordered with the smaller endpoint first, so the
decomposition does not depend on traversal direction). -/
def unitSegsOfEdge (a b : Point) : List (Point × Point) :=
  if a.1 = b.1 then
    (List.range (b.2 - a.2).natAbs).map (fun i =>
      ((a.1, min a.2 b.2 + (i : ℤ)), (a.1, min a.2 b.2 + (i : ℤ) + 1)))
  else if a.2 = b.2 then
    (List.range (b.1 - a.1).natAbs).map (fun i =>
      ((min a.1 b.1 + (i : ℤ), a.2), (min a.1 b.1 + (i : ℤ) + 1, a.2)))
  else []

/-- The unit segments making up a polygon's boundary. -/
def boundarySegs (poly : Polygon) : List (Point × Point) :=
  ((polygonEdges poly).map (fun e => unitSegsOfEdge e.1 e.2)).flatten

/-- Modelled from the spec: shared-boundary length of two polygons — the
number of boundary unit segments they have in common. -/
def shared_perim_length (p q : Polygon) : ℚ :=
  (((boundarySegs p).filter (fun s => (boundarySegs q).contains s)).length : ℚ)

/-- Rook adjacency: the polygons share a boundary piece of positive length. -/
def rookAdjacent (p q : Polygon) : Bool :=
  (boundarySegs p).any (fun s => (boundarySegs q).contains s)

/-- The grid points lying on a polygon's boundary (the endpoints of its unit
segments). -/
def segPoints (poly : Polygon) : List Point :=
  ((boundarySegs poly).map (fun s => [s.1, s.2])).flatten

/-- Queen adjacency: the polygons share at least one boundary point. -/
def queenAdjacent (p q : Polygon) : Bool :=
  (segPoints p).any (fun v => (segPoints q).contains v)

/-- Twice the signed shoelace area of a polygon. -/
def shoelaceDouble (poly : Polygon) : ℤ :=
  ((polygonEdges poly).map (fun e => e.1.1 * e.2.2 - e.2.1 * e.1.2)).sum

/-- Modelled from the spec: the polygon's area (shoelace formula). -/
def polygonArea (poly : Polygon) : ℚ :=
  |((shoelaceDouble poly : ℤ) : ℚ)| / 2

/-- The adjacency enum accepted by `Graph.from_geodataframe`. -/
inductive Adjacency where
  | Rook
  | Queen
deriving DecidableEq

/-- Dispatch of the adjacency test. -/
def adjacentUnder : Adjacency → Polygon → Polygon → Bool
  | Adjacency.Rook, p, q => rookAdjacent p q
  | Adjacency.Queen, p, q => queenAdjacent p q

/-- Modelled from the spec: the adjacency argument may be passed either as an
Adjacency enum value or as the strings "rook" and "queen"; anything else is
rejected. -/
def adjacencyOfArg : Adjacency ⊕ String → Option Adjacency
  | Sum.inl a => some a
  | Sum.inr s =>
      if s = "rook" then some Adjacency.Rook
      else if s = "queen" then some Adjacency.Queen
      else none

/-- A geodataframe as an ordered id-to-geometry table. -/
abbrev GeoDataFrame := List (String × Polygon)

/-- The geometry recorded for an id (the empty polygon for an unknown id). -/
def geomOf (df : GeoDataFrame) (id : String) : Polygon :=
  match df.find? (fun r => r.1 == id) with
  | some r => r.2
  | none => []

/-- All index-ordered pairs of a list. -/
def orderedPairs : List String → List (String × String)
  | [] => []
  | x :: xs => xs.map (fun y => (x, y)) ++ orderedPairs xs

/-- The unit segments of one polygon's boundary lying on the outer boundary of
the union: those belonging to no other polygon of the table. -/
def outerBoundarySegs (df : GeoDataFrame) (id : String) : List (Point × Point) :=
  (boundarySegs (geomOf df id)).filter (fun s =>
    df.all (fun r => r.1 == id || !(boundarySegs r.2).contains s))

/-- The graph a geodataframe yields: nodes with area, boundary flag and
outer-boundary perimeter, edges with shared-boundary length. -/
structure GeoGraph where
  nodes : List String
  edges : List (String × String)
  area : String → ℚ
  shared_perim : String → String → ℚ
  boundary_node : String → Bool
  boundary_perim : String → ℚ

/-- Modelled from the spec: `Graph.from_geodataframe` (reproject=False path) —
adjacency from the geometries under the requested rule, each edge annotated
with the shared-boundary length, each node with its polygon's area, the nodes
on the union's outer boundary flagged with their outer-boundary length. -/
def from_geodataframe (df : GeoDataFrame) (adjacency : Adjacency ⊕ String) :
    Option GeoGraph :=
  match adjacencyOfArg adjacency with
  | none => none
  | some adj =>
      some
        { nodes := df.map Prod.fst
          edges := (orderedPairs (df.map Prod.fst)).filter (fun e =>
            adjacentUnder adj (geomOf df e.1) (geomOf df e.2))
          area := fun id => polygonArea (geomOf df id)
          shared_perim := fun a b => shared_perim_length (geomOf df a) (geomOf df b)
          boundary_node := fun id => !(outerBoundarySegs df id).isEmpty
          boundary_perim := fun id => ((outerBoundarySegs df id).length : ℚ) }

/-
Concrete fixtures.  The first is the test suite's 2x2 grid of unit squares,
the second its five-polygon figure (columns a | b,d,c | e).
-/

/-- The 2x2 grid of unit squares of the test fixture `geodataframe`. -/
def geodataframe : GeoDataFrame :=
  [("a", [((0 : ℤ), (0 : ℤ)), (0, 1), (1, 1), (1, 0)]),
   ("b", [((0 : ℤ), (1 : ℤ)), (0, 2), (1, 2), (1, 1)]),
   ("c", [((1 : ℤ), (0 : ℤ)), (1, 1), (2, 1), (2, 0)]),
   ("d", [((1 : ℤ), (1 : ℤ)), (1, 2), (2, 2), (2, 1)])]

/-- The five-polygon fixture `geodataframe_with_boundary`: a 1x3 column a, the
unit squares b, d, c stacked in the middle, and a 1x3 column e. -/
def geodataframe_with_boundary : GeoDataFrame :=
  [("a", [((0 : ℤ), (0 : ℤ)), (0, 1), (0, 2), (0, 3), (1, 3), (1, 2), (1, 1), (1, 0)]),
   ("b", [((1 : ℤ), (2 : ℤ)), (1, 3), (2, 3), (2, 2)]),
   ("c", [((1 : ℤ), (0 : ℤ)), (1, 1), (2, 1), (2, 0)]),
   ("d", [((1 : ℤ), (1 : ℤ)), (1, 2), (2, 2), (2, 1)]),
   ("e", [((2 : ℤ), (0 : ℤ)), (2, 1), (2, 2), (2, 3), (3, 3), (3, 2), (3, 1), (3, 0)])]

/-- A 2x2 grid graph: nodes 0,1 form the bottom row (part 0) and nodes 2,3 the
top row (part 1); every node has population 1 and area 1, every corner square
contributes 2 units of outer boundary, every edge 1 unit of shared
boundary. -/
def gridGraph : Graph where
  nodes := [0, 1, 2, 3]
  edges := [(0, 1), (0, 2), (1, 3), (2, 3)]
  pop := fun _ => 1
  area := fun _ => 1
  boundary_perim := fun _ => 2
  shared_perim := fun _ => 1

/-- The initial two-part partition of the 2x2 grid, with the updaters a
BasicChain needs. -/
def gridPartition : Partition where
  graph := gridGraph
  assignment := fun n => if n ≤ 1 then 0 else 1
  prevParts := [0, 1]
  flip := none
  updaters := ["cut_edges", "population"]

/-- A one-node partition: its `cut_edges` value is empty, although both
required updaters are registered. -/
def pNoCutEdges : Partition where
  graph :=
    { nodes := [0]
      edges := []
      pop := fun _ => 1
      area := fun _ => 1
      boundary_perim := fun _ => 0
      shared_perim := fun _ => 0 }
  assignment := fun _ => 0
  prevParts := [0]
  flip := none
  updaters := ["cut_edges", "population"]

/-- A degenerate partition whose node list is empty while an edge remains
recorded: its `cut_edges` value is nonempty but its `population` tally
dictionary is empty. -/
def pNoPop : Partition where
  graph :=
    { nodes := []
      edges := [(0, 1)]
      pop := fun _ => 1
      area := fun _ => 1
      boundary_perim := fun _ => 0
      shared_perim := fun _ => 0 }
  assignment := fun n => n
  prevParts := []
  flip := none
  updaters := ["cut_edges", "population"]

/-- A partition with no registered updaters at all. -/
def pMissingUpdaters : Partition where
  graph := gridGraph
  assignment := fun n => if n ≤ 1 then 0 else 1
  prevParts := [0, 1]
  flip := none
  updaters := []

/-- A two-node, two-part partition with populations 99 and 101: each part is
within 1% of the ideal population 100, yet the two parts' populations are not
within 1% of one another. -/
def cxPartition : Partition where
  graph :=
    { nodes := [0, 1]
      edges := [(0, 1)]
      pop := fun n => if n = 0 then 99 else 101
      area := fun _ => 1
      boundary_perim := fun _ => 1
      shared_perim := fun _ => 1 }
  assignment := fun n => n
  prevParts := [0, 1]
  flip := none
  updaters := ["cut_edges", "population"]

/-
Helper lemmas, shared by the claim theorems below.
-/

/-- Shared-boundary length from an evaluated segment count. -/
theorem shared_perim_length_eq (p q : Polygon) (n : ℕ)
    (h : ((boundarySegs p).filter (fun s => (boundarySegs q).contains s)).length = n) :
    shared_perim_length p q = (n : ℚ) := by
  unfold shared_perim_length
  exact_mod_cast congrArg (fun k : ℕ => (k : ℚ)) h

/-- Polygon area from an evaluated shoelace value. -/
theorem polygonArea_eq (p : Polygon) (z : ℤ) (h : shoelaceDouble p = z) :
    polygonArea p = |(z : ℚ)| / 2 := by
  unfold polygonArea
  rw [h]

/-- Elimination for a successful `MarkovChain.create`: it returns exactly the
record of its arguments, and the initial state passed the validator. -/
theorem MarkovChain.create_ok (pr : ProposalKind) (v : Validator)
    (a : Partition → Bool) (s : Partition) (t : Nat) (c : MarkovChain)
    (h : MarkovChain.create pr v a s t = Except.ok c) :
    c = ⟨pr, v, a, s, t⟩ ∧ v.isValid s = true := by
  unfold MarkovChain.create at h
  split at h
  · exact ⟨(Except.ok.inj h).symm, by assumption⟩
  · exact Except.noConfusion h

/-- Elimination for a successful `DefaultChain` construction. -/
theorem DefaultChain_ok (p : Partition) (cs : List ConstraintSpec) (ts : Nat)
    (c : MarkovChain) (h : DefaultChain p cs ts = Except.ok c) :
    c = ⟨ProposalKind.propose_random_flip, ⟨cs⟩, always_accept, p, ts⟩ ∧
      Validator.isValid ⟨cs⟩ p = true :=
  MarkovChain.create_ok _ _ _ _ _ _ h

/-- Elimination for a successful `GridChain` construction. -/
theorem GridChain_ok (p : Partition) (ts : Nat) (c : MarkovChain)
    (h : GridChain p ts = Except.ok c) :
    c = ⟨ProposalKind.propose_random_flip, grid_validator, always_accept, p, ts⟩ ∧
      grid_validator.isValid p = true := by
  unfold GridChain at h
  by_cases h1 : "cut_edges" ∈ p.updaters
  · have hce : p.getCutEdges = Except.ok (cut_edges p) := by
      unfold Partition.getCutEdges
      rw [if_pos h1]
    simp only [hce] at h
    by_cases h2 : (cut_edges p).isEmpty
    · rw [if_pos h2] at h
      exact Except.noConfusion h
    · rw [if_neg h2] at h
      exact MarkovChain.create_ok _ _ _ _ _ _ h
  · have hce : p.getCutEdges = Except.error (Err.keyError "cut_edges") := by
      unfold Partition.getCutEdges
      rw [if_neg h1]
    simp only [hce] at h
    exact Except.noConfusion h

/-- The validator BasicChain builds from an initial state. -/
def basicConstraints (p : Partition) : List ConstraintSpec :=
  [ConstraintSpec.contiguous, ConstraintSpec.noVanishing,
   within_percent_of_ideal_population p (1 / 100),
   UpperBound (L1_reciprocal_polsby_popper p)]

/-- Elimination for a successful `BasicChain` construction: the chain is
exactly `propose_random_flip` / the four-constraint validator /
`always_accept` over the given initial state, which passed that validator. -/
theorem BasicChain_ok (p : Partition) (ts : Nat) (c : MarkovChain)
    (h : BasicChain p ts = Except.ok c) :
    c = ⟨ProposalKind.propose_random_flip, ⟨basicConstraints p⟩, always_accept, p, ts⟩ ∧
      Validator.isValid ⟨basicConstraints p⟩ p = true := by
  unfold BasicChain at h
  by_cases h1 : "cut_edges" ∈ p.updaters
  · have hce : p.getCutEdges = Except.ok (cut_edges p) := by
      unfold Partition.getCutEdges
      rw [if_pos h1]
    simp only [hce] at h
    by_cases h2 : (cut_edges p).isEmpty
    · rw [if_pos h2] at h
      exact Except.noConfusion h
    · rw [if_neg h2] at h
      by_cases h3 : "population" ∈ p.updaters
      · have hpt : p.getPopulationTally = Except.ok (populationTally p) := by
          unfold Partition.getPopulationTally
          rw [if_pos h3]
        simp only [hpt] at h
        by_cases h4 : (populationTally p).isEmpty
        · rw [if_pos h4] at h
          exact Except.noConfusion h
        · rw [if_neg h4] at h
          have h5 := MarkovChain.create_ok _ _ _ _ _ _ h
          constructor
          · rw [h5.1]
            simp [basicConstraints, default_constraints]
          · have h6 := h5.2
            simpa [basicConstraints, default_constraints] using h6
      · have hpt : p.getPopulationTally = Except.error (Err.keyError "population") := by
          unfold Partition.getPopulationTally
          rw [if_neg h3]
        simp only [hpt] at h
        exact Except.noConfusion h
  · have hce : p.getCutEdges = Except.error (Err.keyError "cut_edges") := by
      unfold Partition.getCutEdges
      rw [if_neg h1]
    simp only [hce] at h
    exact Except.noConfusion h

/-- One step keeps validity: the next state is the candidate only if it
passed the validator, and otherwise the (already valid) current state. -/
theorem step_preserves_valid (c : MarkovChain) (current cand : Partition)
    (h : c.validator.isValid current = true) :
    c.validator.isValid (c.step current cand) = true := by
  unfold MarkovChain.step
  split
  · next hc => exact ((Bool.and_eq_true _ _).mp hc).1
  · exact h

/-- Every state produced after the initial one is valid, provided the current
state is. -/
theorem runFrom_valid (c : MarkovChain) :
    ∀ (cands : List Partition) (current : Partition),
      c.validator.isValid current = true →
      ∀ q ∈ runFrom c current cands, c.validator.isValid q = true := by
  intro cands
  induction cands with
  | nil =>
      intro current _ q hq
      simp [runFrom] at hq
  | cons cand rest ih =>
      intro current h q hq
      simp only [runFrom, List.mem_cons] at hq
      rcases hq with h1 | h2
      · rw [h1]
        exact step_preserves_valid c current cand h
      · exact ih (c.step current cand) (step_preserves_valid c current cand h) q h2

/-- Every partition emitted by a run of a chain whose initial state is valid
passes the chain's validator. -/
theorem run_valid (c : MarkovChain)
    (h : c.validator.isValid c.initial_state = true) (cands : List Partition)
    (q : Partition) (hq : q ∈ c.run cands) : c.validator.isValid q = true := by
  simp only [MarkovChain.run, List.mem_cons] at hq
  rcases hq with h1 | h2
  · rw [h1]
    exact h
  · exact runFrom_valid c cands c.initial_state h q h2

/-- Concrete evaluation: BasicChain accepts the 2x2 grid partition, capturing
ideal population 2 and compactness bound 36 from it. -/
theorem basicChain_grid_ok : BasicChain gridPartition 5 = Except.ok
    ⟨ProposalKind.propose_random_flip,
     ⟨[ConstraintSpec.contiguous, ConstraintSpec.noVanishing,
       ConstraintSpec.withinPercent 2 (1 / 100), ConstraintSpec.upperBoundL1RPP 36]⟩,
     always_accept, gridPartition, 5⟩ := by
  simp only [BasicChain, Partition.getCutEdges, Partition.getPopulationTally]
  norm_num [gridPartition, gridGraph, cut_edges, populationTally, Partition.parts,
    population, Tally, MarkovChain.create, Validator.isValid, default_constraints,
    evalConstraint, within_percent_of_ideal_population, ideal_population, total_population,
    single_flip_contiguous, no_vanishing_districts, connectedPart, growReach, adjacentIn,
    UpperBound, L1_reciprocal_polsby_popper, perimeters]

/-- Concrete evaluation: GridChain accepts the 2x2 grid partition. -/
theorem gridChain_grid_ok : GridChain gridPartition 5 = Except.ok
    ⟨ProposalKind.propose_random_flip, grid_validator, always_accept, gridPartition, 5⟩ := by
  simp only [GridChain, Partition.getCutEdges]
  norm_num [gridPartition, gridGraph, cut_edges, MarkovChain.create, Validator.isValid,
    grid_validator, evalConstraint, single_flip_contiguous, no_vanishing_districts,
    Partition.parts, connectedPart, growReach, adjacentIn]

/-
Claim theorems.
-/

/-- C1 (counterexample): on a partition whose `cut_edges` value is empty,
BasicChain's constructor raises ValueError, not the ConfigurationError the
claim names — so the claim as stated is false. -/
theorem C1_error_type_counterexample :
    BasicChain pNoCutEdges 1000 =
      Except.error (Err.valueError "BasicChain needs the Partition to have a cut_edges updater.") ∧
    ¬ BasicChain pNoCutEdges 1000 = Except.error Err.configurationError := by
  refine ⟨rfl, fun h => ?_⟩
  rw [show BasicChain pNoCutEdges 1000 =
      Except.error (Err.valueError "BasicChain needs the Partition to have a cut_edges updater.")
    from rfl] at h
  exact Err.noConfusion (Except.error.inj h)

/-- C1 (amended): constructing BasicChain on an initial partition whose
required `cut_edges` or `population` updater value is empty raises ValueError
(not ConfigurationError) at construction time — no MarkovChain is produced,
so no step ever executes; a missing registration surfaces as the updater
lookup's KeyError. -/
theorem C1_construction_fails_fast :
    (∀ (p : Partition) (ts : Nat), "cut_edges" ∈ p.updaters → cut_edges p = [] →
       BasicChain p ts =
         Except.error (Err.valueError "BasicChain needs the Partition to have a cut_edges updater.")) ∧
    (∀ (p : Partition) (ts : Nat), "cut_edges" ∈ p.updaters → cut_edges p ≠ [] →
       "population" ∈ p.updaters → populationTally p = [] →
       BasicChain p ts =
         Except.error (Err.valueError "BasicChain needs the Partition to have a population updater.")) ∧
    (∀ (p : Partition) (ts : Nat), "cut_edges" ∉ p.updaters →
       BasicChain p ts = Except.error (Err.keyError "cut_edges")) := by
  refine ⟨fun p ts h1 h2 => ?_, fun p ts h1 h2 h3 h4 => ?_, fun p ts h1 => ?_⟩
  · have hce : p.getCutEdges = Except.ok (cut_edges p) := by
      unfold Partition.getCutEdges
      rw [if_pos h1]
    unfold BasicChain
    simp [hce, h2]
  · have hce : p.getCutEdges = Except.ok (cut_edges p) := by
      unfold Partition.getCutEdges
      rw [if_pos h1]
    have hpt : p.getPopulationTally = Except.ok (populationTally p) := by
      unfold Partition.getPopulationTally
      rw [if_pos h3]
    unfold BasicChain
    simp [hce, hpt, h2, h4]
  · have hce : p.getCutEdges = Except.error (Err.keyError "cut_edges") := by
      unfold Partition.getCutEdges
      rw [if_neg h1]
    unfold BasicChain
    simp [hce]

/-- C1 (witness): the three failure modes at concrete partitions. -/
theorem C1_witness :
    BasicChain pNoCutEdges 7 =
      Except.error (Err.valueError "BasicChain needs the Partition to have a cut_edges updater.") ∧
    BasicChain pNoPop 7 =
      Except.error (Err.valueError "BasicChain needs the Partition to have a population updater.") ∧
    BasicChain pMissingUpdaters 7 = Except.error (Err.keyError "cut_edges") :=
  ⟨C1_construction_fails_fast.1 pNoCutEdges 7 (by decide) rfl,
   C1_construction_fails_fast.2.1 pNoPop 7 (by decide) (by decide) (by decide) rfl,
   C1_construction_fails_fast.2.2 pMissingUpdaters 7 (by decide)⟩

/-- C2: for every initial partition the constructor accepts, BasicChain's
validator is exactly the four constraints, in order: contiguity,
no-vanishing-districts, the within-1%-of-ideal population constraint bound to
the initial partition, and the UpperBound on `L1_reciprocal_polsby_popper`
whose bound is that statistic evaluated on the initial partition. -/
theorem C2_basicchain_validator_exact :
    ∀ (p : Partition) (ts : Nat) (c : MarkovChain),
      BasicChain p ts = Except.ok c →
      c.validator.constraints =
        [ConstraintSpec.contiguous, ConstraintSpec.noVanishing,
         within_percent_of_ideal_population p (1 / 100),
         UpperBound (L1_reciprocal_polsby_popper p)] := by
  intro p ts c h
  rw [(BasicChain_ok p ts c h).1]
  rfl

/-- C2 (witness): the validator captured from the 2x2 grid partition. -/
theorem C2_witness :
    (BasicChain gridPartition 5).map (fun c => c.validator.constraints) =
      Except.ok [ConstraintSpec.contiguous, ConstraintSpec.noVanishing,
        within_percent_of_ideal_population gridPartition (1 / 100),
        UpperBound (L1_reciprocal_polsby_popper gridPartition)] := by
  rw [basicChain_grid_ok]
  simp only [Except.map]
  exact congrArg Except.ok (C2_basicchain_validator_exact gridPartition 5 _ basicChain_grid_ok)

/-- C3 (counterexample): the partition with part populations 99 and 101 and
ideal population 100 passes BasicChain's within-1%-of-ideal population
constraint, yet its two part populations are not within 1% of one another
(under either reading of the percentage base) — so the docstring's "within 1%
of one another" phrasing does not agree with the enforced constraint, and the
claim's agreement requirement is false. -/
theorem C3_pairwise_phrasing_counterexample :
    evalConstraint (within_percent_of_ideal_population cxPartition (1 / 100)) cxPartition = true ∧
    cxPartition.parts = [0, 1] ∧
    population cxPartition 0 = 99 ∧
    population cxPartition 1 = 101 ∧
    ¬ |population cxPartition 0 - population cxPartition 1| ≤
        (1 / 100) * population cxPartition 0 ∧
    ¬ |population cxPartition 0 - population cxPartition 1| ≤
        (1 / 100) * population cxPartition 1 := by
  refine ⟨?_, by decide, ?_, ?_, ?_, ?_⟩
  · norm_num [evalConstraint, within_percent_of_ideal_population, ideal_population,
      total_population, Partition.parts, cxPartition, population, Tally]
  all_goals norm_num [population, Tally, cxPartition, Partition.parts]

/-- C3 (amended): every partition emitted by a BasicChain run has every
part's population Tally within 1% of the ideal population (total population
divided by number of parts) computed from the initial partition; the
docstring's "within 1% of one another" phrasing is a distinct, inequivalent
predicate (see the counterexample). -/
theorem C3_population_within_one_percent_of_ideal :
    ∀ (p0 : Partition) (ts : Nat) (c : MarkovChain) (cands : List Partition)
      (q : Partition) (part : Nat),
      BasicChain p0 ts = Except.ok c →
      q ∈ c.run cands →
      part ∈ q.parts →
      |population q part - ideal_population p0| ≤ (1 / 100) * ideal_population p0 := by
  intro p0 ts c cands q part h hq hpart
  obtain ⟨hc, hvalid⟩ := BasicChain_ok p0 ts c h
  subst hc
  have hqv := run_valid _ hvalid cands q hq
  simp only [Validator.isValid, basicConstraints, List.all_cons, List.all_nil,
    Bool.and_eq_true, Bool.and_true] at hqv
  have h3 := hqv.2.2.1
  simp only [within_percent_of_ideal_population, evalConstraint, List.all_eq_true,
    decide_eq_true_eq] at h3
  exact h3 part hpart

/-- C3 (witness): the bound at the initial grid partition itself. -/
theorem C3_witness :
    |population gridPartition 0 - ideal_population gridPartition| ≤
      (1 / 100) * ideal_population gridPartition :=
  C3_population_within_one_percent_of_ideal gridPartition 5 _ [] gridPartition 0
    basicChain_grid_ok (by simp [MarkovChain.run, runFrom]) (by decide)

/-- C4: BasicChain's constraint state is a fixed function of the initial
partition, captured once at construction (the validator is literally the
four-constraint list computed from `p0`, and nothing in the run ever changes
it — the step function only reads it); consequently every emitted partition
has `L1_reciprocal_polsby_popper` at most its value on the initial state. -/
theorem C4_compactness_never_exceeds_initial :
    ∀ (p0 : Partition) (ts : Nat) (c : MarkovChain),
      BasicChain p0 ts = Except.ok c →
      c.validator = ⟨[ConstraintSpec.contiguous, ConstraintSpec.noVanishing,
          within_percent_of_ideal_population p0 (1 / 100),
          UpperBound (L1_reciprocal_polsby_popper p0)]⟩ ∧
      ∀ (cands : List Partition) (q : Partition), q ∈ c.run cands →
        L1_reciprocal_polsby_popper q ≤ L1_reciprocal_polsby_popper p0 := by
  intro p0 ts c h
  obtain ⟨hc, hvalid⟩ := BasicChain_ok p0 ts c h
  subst hc
  refine ⟨rfl, fun cands q hq => ?_⟩
  have hqv := run_valid _ hvalid cands q hq
  simp only [Validator.isValid, basicConstraints, List.all_cons, List.all_nil,
    Bool.and_eq_true, Bool.and_true] at hqv
  have h4 := hqv.2.2.2
  simp only [UpperBound, evalConstraint, decide_eq_true_eq] at h4
  exact h4

/-- C4 (witness): at the initial grid partition the bound holds as an
equality. -/
theorem C4_witness :
    L1_reciprocal_polsby_popper gridPartition ≤ L1_reciprocal_polsby_popper gridPartition :=
  (C4_compactness_never_exceeds_initial gridPartition 5 _ basicChain_grid_ok).2 []
    gridPartition (by simp [MarkovChain.run, runFrom])

/-- C5: every chain variant of defaults.py runs with `propose_random_flip`
and `always_accept`; `always_accept` returns true unconditionally, so a
candidate that passes the validator always becomes the next state. -/
theorem C5_proposal_and_acceptance :
    (∀ (p : Partition) (cs : List ConstraintSpec) (ts : Nat) (c : MarkovChain),
       DefaultChain p cs ts = Except.ok c →
       c.proposal = ProposalKind.propose_random_flip ∧ c.accept = always_accept) ∧
    (∀ (p : Partition) (ts : Nat) (c : MarkovChain),
       BasicChain p ts = Except.ok c →
       c.proposal = ProposalKind.propose_random_flip ∧ c.accept = always_accept) ∧
    (∀ (p : Partition) (ts : Nat) (c : MarkovChain),
       GridChain p ts = Except.ok c →
       c.proposal = ProposalKind.propose_random_flip ∧ c.accept = always_accept) ∧
    (∀ p : Partition, always_accept p = true) ∧
    (∀ (c : MarkovChain) (cur cand : Partition),
       c.accept = always_accept → c.validator.isValid cand = true →
       c.step cur cand = cand) := by
  refine ⟨fun p cs ts c h => ?_, fun p ts c h => ?_, fun p ts c h => ?_,
    fun _ => rfl, fun c cur cand ha hv => ?_⟩
  · rw [(DefaultChain_ok p cs ts c h).1]
    exact ⟨rfl, rfl⟩
  · rw [(BasicChain_ok p ts c h).1]
    exact ⟨rfl, rfl⟩
  · rw [(GridChain_ok p ts c h).1]
    exact ⟨rfl, rfl⟩
  · unfold MarkovChain.step
    rw [hv, ha]
    rfl

/-- C5 (witness): the acceptance function and a kept valid proposal at
concrete inputs. -/
theorem C5_witness :
    always_accept gridPartition = true ∧
    (GridChain gridPartition 5).map (fun c => c.proposal) =
      Except.ok ProposalKind.propose_random_flip ∧
    MarkovChain.step
      ⟨ProposalKind.propose_random_flip, grid_validator, always_accept, gridPartition, 5⟩
      pNoCutEdges gridPartition = gridPartition := by
  refine ⟨C5_proposal_and_acceptance.2.2.2.1 gridPartition, ?_, ?_⟩
  · obtain ⟨c, hc⟩ : ∃ c, GridChain gridPartition 5 = Except.ok c := ⟨_, gridChain_grid_ok⟩
    have hp := (C5_proposal_and_acceptance.2.2.1 gridPartition 5 c hc).1
    rw [hc]
    simp only [Except.map, hp]
  · exact C5_proposal_and_acceptance.2.2.2.2 _ pNoCutEdges gridPartition rfl (by decide)

/-- C6: under `grid_validator` (and under a Validator built from
`default_constraints`, as DefaultChain builds it) a partition is valid
exactly when `single_flip_contiguous` holds and `no_vanishing_districts`
holds — the affected districts stay connected and no pre-existing district
becomes empty — and the constraint list is exactly those two predicates in
that order; a successful GridChain uses exactly `grid_validator`. -/
theorem C6_grid_validity_conjunction :
    ∀ p : Partition,
      grid_validator.isValid p = (single_flip_contiguous p && no_vanishing_districts p) ∧
      Validator.isValid ⟨default_constraints⟩ p =
        (single_flip_contiguous p && no_vanishing_districts p) ∧
      grid_validator.constraints = [ConstraintSpec.contiguous, ConstraintSpec.noVanishing] ∧
      default_constraints = [ConstraintSpec.contiguous, ConstraintSpec.noVanishing] ∧
      (∀ (ts : Nat) (c : MarkovChain), GridChain p ts = Except.ok c →
        c.validator = grid_validator) := by
  intro p
  refine ⟨?_, ?_, rfl, rfl, fun ts c h => ?_⟩
  · simp [grid_validator, Validator.isValid, evalConstraint]
  · simp [default_constraints, Validator.isValid, evalConstraint]
  · rw [(GridChain_ok p ts c h).1]

/-- C6 (witness): GridChain on the grid partition carries grid_validator. -/
theorem C6_witness :
    (GridChain gridPartition 5).map (fun c => c.validator) = Except.ok grid_validator := by
  obtain ⟨c, hc⟩ : ∃ c, GridChain gridPartition 5 = Except.ok c := ⟨_, gridChain_grid_ok⟩
  rw [hc]
  simp only [Except.map]
  exact congrArg Except.ok
    ((C6_grid_validity_conjunction gridPartition).2.2.2.2 5 c hc)

/-- C7: on the 2x2 grid of unit squares with rook adjacency (no
reprojection), the graph's edge set is exactly a–b, a–c, b–d, c–d, every edge
carries shared_perim 1, and every node carries area 1. -/
theorem C7_rook_grid_graph :
    (from_geodataframe geodataframe (Sum.inl Adjacency.Rook)).map GeoGraph.edges =
      some [("a", "b"), ("a", "c"), ("b", "d"), ("c", "d")] ∧
    (from_geodataframe geodataframe (Sum.inl Adjacency.Rook)).map
      (fun g => g.edges.map (fun e => g.shared_perim e.1 e.2)) = some [1, 1, 1, 1] ∧
    (from_geodataframe geodataframe (Sum.inl Adjacency.Rook)).map
      (fun g => g.nodes.map g.area) = some [1, 1, 1, 1] := by
  refine ⟨by decide, ?_, ?_⟩
  · have hedges :
        (orderedPairs (geodataframe.map Prod.fst)).filter (fun e =>
          adjacentUnder Adjacency.Rook (geomOf geodataframe e.1) (geomOf geodataframe e.2)) =
        [("a", "b"), ("a", "c"), ("b", "d"), ("c", "d")] := by decide
    simp only [from_geodataframe, adjacencyOfArg, Option.map, hedges, List.map]
    rw [shared_perim_length_eq _ _ 1 (by decide), shared_perim_length_eq _ _ 1 (by decide),
      shared_perim_length_eq _ _ 1 (by decide), shared_perim_length_eq _ _ 1 (by decide)]
    norm_num
  · simp only [from_geodataframe, adjacencyOfArg, Option.map, geodataframe, List.map]
    rw [polygonArea_eq _ (-2) (by decide), polygonArea_eq _ (-2) (by decide),
      polygonArea_eq _ (-2) (by decide), polygonArea_eq _ (-2) (by decide)]
    norm_num

/-- C8: on the five-polygon fixture (columns a | b,d,c | e), exactly the
outer nodes a, b, c, e are flagged boundary_node, with boundary_perim 5, 1,
1, 5 respectively, and the interior node d is not flagged and has
boundary_perim 0. -/
theorem C8_boundary_nodes_and_perims :
    (from_geodataframe geodataframe_with_boundary (Sum.inl Adjacency.Rook)).map
      (fun g => (g.nodes.map g.boundary_node, g.nodes.map g.boundary_perim)) =
      some ([true, true, true, false, true], [5, 1, 1, 0, 5]) := by decide

/-- C9: the adjacency argument may be the enum value Queen or the string
"queen", and the two produce the same graph; on the 2x2 unit-square grid the
queen edge set is the rook edge set plus the two diagonals a–d and b–c. -/
theorem C9_queen_adjacency_arg_forms :
    from_geodataframe geodataframe (Sum.inl Adjacency.Queen) =
      from_geodataframe geodataframe (Sum.inr "queen") ∧
    (from_geodataframe geodataframe (Sum.inl Adjacency.Queen)).map GeoGraph.edges =
      some [("a", "b"), ("a", "c"), ("a", "d"), ("b", "c"), ("b", "d"), ("c", "d")] ∧
    (from_geodataframe geodataframe (Sum.inl Adjacency.Rook)).map GeoGraph.edges =
      some [("a", "b"), ("a", "c"), ("b", "d"), ("c", "d")] :=
  ⟨rfl, by decide, by decide⟩

end GerryChain
